import Mathlib

/-!
Verification of the karpenter cloud-resource reconciliation core.

The development shallowly embeds three parts of the Go source:

* `AutoScalingGroup.Reconcile` (pkg/cloudprovider/nodegroup/aws/autoscalinggroup.go):
  the per-pass reconcile algorithm for an AWS auto-scaling group.  The AWS
  client is modelled as a pair of response functions; the embedding returns
  the new status, the trace of API calls issued, and the outcome (success,
  returned error, or runtime crash).
* `Factory.CapacityFor` (aws cloud-provider factory): pure construction of a
  capacity handle from the factory's sub-provider references.
* `withRegion` (aws session middleware): region resolution from the instance
  metadata service, fatal on failure.
-/

namespace Karpenter

/-- Wrap-around conversion of an unbounded integer to the int32 range,
mirroring Go's `int32(...)` cast. -/
def toInt32 (n : Int) : Int := (n + 2 ^ 31) % 2 ^ 32 - 2 ^ 31

/-- `errors.Wrapf(err, msg)` produces a message of the form `msg: cause`. -/
def wrapf (msg cause : String) : String := msg ++ ": " ++ cause

/-- `true` when the first character list starts with the second. -/
def startsWithChars : List Char → List Char → Bool
  | _, [] => true
  | [], _ :: _ => false
  | a :: as, b :: bs => a == b && startsWithChars as bs

/-- `true` when the second character list occurs contiguously inside the
first. -/
def hasSubChars : List Char → List Char → Bool
  | [], needle => needle.isEmpty
  | c :: rest, needle => startsWithChars (c :: rest) needle || hasSubChars rest needle

/-- `true` when `needle` occurs as a substring of `haystack`. -/
def containsStr (haystack needle : String) : Bool :=
  hasSubChars haystack.data needle.data

/-- One EC2 instance belonging to an auto-scaling group (opaque identity). -/
structure Instance where
  instanceId : String
deriving Repr, DecidableEq

/-- The member data of one auto-scaling group in a describe response
(`autoscaling.Group`): only the `Instances` field is read by the code. -/
structure AsgData where
  instances : List Instance
deriving Repr, DecidableEq

/-- `autoscaling.DescribeAutoScalingGroupsInput`. -/
structure DescribeInput where
  autoScalingGroupNames : List String
  maxRecords : Int
deriving Repr, DecidableEq

/-- `autoscaling.DescribeAutoScalingGroupsOutput`. -/
structure DescribeOutput where
  autoScalingGroups : List AsgData
deriving Repr, DecidableEq

/-- `autoscaling.UpdateAutoScalingGroupInput`: the fields the code sets. -/
structure UpdateInput where
  autoScalingGroupName : String
  desiredCapacity : Int
deriving Repr, DecidableEq

/-- One outbound AWS API call, recorded in the order issued. -/
inductive ApiCall where
  | describe (input : DescribeInput)
  | update (input : UpdateInput)
deriving Repr, DecidableEq

/-- `true` exactly on mutating (update) calls. -/
def ApiCall.isUpdate : ApiCall → Bool
  | .describe _ => false
  | .update _ => true

/-- The AWS autoscaling client (`autoscalingiface.AutoScalingAPI`), modelled
as response functions: each request either fails with an error message or
returns a response. -/
structure Client where
  describeAutoScalingGroups : DescribeInput → Except String DescribeOutput
  updateAutoScalingGroup : UpdateInput → Except String Unit

/-- `v1alpha1.ScalableNodeGroupSpec`: `ID` identifies the cloud resource and
`Replicas` is the optional desired count (`*int32` in Go). -/
structure Spec where
  id : String
  replicas : Option Int
deriving Repr, DecidableEq

/-- `v1alpha1.ScalableNodeGroupStatus`: `Replicas` is the optional observed
count (`*int32` in Go). -/
structure Status where
  replicas : Option Int
deriving Repr, DecidableEq

/-- How one reconcile pass ends: normal return with `nil` error, normal
return with a non-nil error message, or a Go runtime panic (crash). -/
inductive ReconcileResult where
  | ok
  | err (msg : String)
  | crash (msg : String)
deriving Repr, DecidableEq

/-- Everything observable from one reconcile pass: the node group status
after the pass, the trace of AWS API calls issued, and the outcome. -/
structure ReconcileOutcome where
  status : Status
  calls : List ApiCall
  result : ReconcileResult
deriving Repr, DecidableEq

/-- The describe request `Reconcile` builds: the single group name and
`MaxRecords: 1`. -/
def describeInputFor (id : String) : DescribeInput :=
  { autoScalingGroupNames := [id], maxRecords := 1 }

/-- The describe-failure wrap applied by `Reconcile`
(`errors.Wrapf(err, "unable to get instance count from auto scaling group %s", ...)`). -/
def describeErrMsg (id cause : String) : String :=
  wrapf ("unable to get instance count from auto scaling group " ++ id) cause

/-- `AutoScalingGroup.Reconcile`, translated statement by statement from the
Go source.  The input `status` is the status before the pass; the returned
outcome carries the status after the pass.  Indexing
`AutoScalingGroups[0]` on an empty slice is a Go runtime panic, modelled as
`ReconcileResult.crash`; it happens before the status assignment, so the
status is unchanged in that case. -/
def Reconcile (client : Client) (spec : Spec) (status : Status) : ReconcileOutcome :=
  let dIn := describeInputFor spec.id
  match client.describeAutoScalingGroups dIn with
  | .error e =>
      { status := status
        calls := [.describe dIn]
        result := .err (describeErrMsg spec.id e) }
  | .ok out =>
      match out.autoScalingGroups with
      | [] =>
          { status := status
            calls := [.describe dIn]
            result := .crash "runtime error: index out of range [0] with length 0" }
      | group :: _ =>
          let observed := toInt32 group.instances.length
          let status' : Status := { replicas := some observed }
          match spec.replicas with
          | none =>
              { status := status', calls := [.describe dIn], result := .ok }
          | some desired =>
              if observed = desired then
                { status := status', calls := [.describe dIn], result := .ok }
              else
                let uIn : UpdateInput :=
                  { autoScalingGroupName := spec.id
                    desiredCapacity := desired }
                match client.updateAutoScalingGroup uIn with
                | .ok _ =>
                    { status := status', calls := [.describe dIn, .update uIn], result := .ok }
                | .error e =>
                    { status := status', calls := [.describe dIn, .update uIn], result := .err e }

/-- The status after iterating `Reconcile` `n` times from `status`
(the caller's fixed-interval control loop, with a fixed cloud response). -/
def reconcileIter (client : Client) (spec : Spec) : Nat → Status → Status
  | 0, status => status
  | n + 1, status => reconcileIter client spec n (Reconcile client spec status).status

/-! ### Factory and capacity handle (aws cloud-provider factory) -/

/-- Opaque reference identity of a heap object: two fields holding the same
reference are modelled as holding the same `Ref` value. -/
abbrev Ref := Nat

/-- `v1alpha1.Provisioner`: opaque to `CapacityFor`, which stores the
pointer unchanged. -/
structure Provisioner where
  name : String
deriving Repr, DecidableEq

/-- The `Factory` struct: one reference per sub-provider, created once by
`NewFactory` and shared thereafter. -/
structure Factory where
  nodeFactory : Ref
  launchTemplateProvider : Ref
  subnetProvider : Ref
  instanceTypeProvider : Ref
  instanceProvider : Ref
deriving Repr, DecidableEq

/-- The `Capacity` handle returned by `Factory.CapacityFor`. -/
structure Capacity where
  provisioner : Provisioner
  nodeFactory : Ref
  launchTemplateProvider : Ref
  subnetProvider : Ref
  instanceTypeProvider : Ref
  instanceProvider : Ref
deriving Repr, DecidableEq

/-- `Factory.CapacityFor`, translated from the Go source: it constructs a
`Capacity` struct from the factory's own sub-provider references and the
given provisioner.  The second component is the trace of AWS API calls the
body issues — the source body is a plain struct literal, so the trace is
empty. -/
def CapacityFor (f : Factory) (p : Provisioner) : Capacity × List ApiCall :=
  ({ provisioner := p
     nodeFactory := f.nodeFactory
     launchTemplateProvider := f.launchTemplateProvider
     subnetProvider := f.subnetProvider
     instanceTypeProvider := f.instanceTypeProvider
     instanceProvider := f.instanceProvider }, [])

/-! ### Session region middleware (`withRegion`) -/

/-- The mutable part of the AWS session the middleware touches:
`Config.Region` (`*string` in Go, so optional). -/
structure Session where
  region : Option String
deriving Repr, DecidableEq

/-- Result of a startup step that may abort the process:
`log.PanicIfError` turns an error into a fatal panic. -/
inductive FatalOr (α : Type) where
  | fatal (msg : String)
  | ok (a : α)
deriving Repr, DecidableEq

/-- `withRegion`, translated from the Go source.  `metadataRegion` is the
result of `ec2metadata.New(sess).Region()` — the instance-metadata lookup.
On lookup failure `log.PanicIfError` aborts startup; on success the
session's region is set to the returned value. -/
def withRegion (metadataRegion : Except String String) (sess : Session) : FatalOr Session :=
  match metadataRegion with
  | .error _ => .fatal "failed to call the metadata server's region API"
  | .ok r => .ok { sess with region := some r }

/-! ### Concrete clients used to exercise the embedding -/

/-- An auto-scaling group currently reporting three member instances. -/
def exGroup3 : AsgData := ⟨[⟨"i-a"⟩, ⟨"i-b"⟩, ⟨"i-c"⟩]⟩

/-- An auto-scaling group currently reporting seven member instances. -/
def exGroup7 : AsgData := ⟨[⟨"i-0"⟩, ⟨"i-1"⟩, ⟨"i-2"⟩, ⟨"i-3"⟩, ⟨"i-4"⟩, ⟨"i-5"⟩, ⟨"i-6"⟩]⟩

/-- A client whose describe call finds `exGroup3` and whose update call
succeeds. -/
def exClientOk : Client :=
  { describeAutoScalingGroups := fun _ => .ok ⟨[exGroup3]⟩
    updateAutoScalingGroup := fun _ => .ok () }

/-- A client whose describe call finds `exGroup7` and whose update call
succeeds. -/
def exClientOk7 : Client :=
  { describeAutoScalingGroups := fun _ => .ok ⟨[exGroup7]⟩
    updateAutoScalingGroup := fun _ => .ok () }

/-- A client whose describe call finds `exGroup3` but whose update call
fails with `"boom"`. -/
def exClientUpdateFail : Client :=
  { describeAutoScalingGroups := fun _ => .ok ⟨[exGroup3]⟩
    updateAutoScalingGroup := fun _ => .error "boom" }

/-- A client whose describe call fails with `"RequestError: send failed"`. -/
def exClientDescribeFail : Client :=
  { describeAutoScalingGroups := fun _ => .error "RequestError: send failed"
    updateAutoScalingGroup := fun _ => .ok () }

/-- A client whose describe call succeeds but returns zero groups — the AWS
behaviour when the named auto-scaling group does not exist. -/
def exClientEmpty : Client :=
  { describeAutoScalingGroups := fun _ => .ok ⟨[]⟩
    updateAutoScalingGroup := fun _ => .ok () }

/-! ### Helper lemmas -/

/-- `toInt32` is the identity on values already in the int32 range. -/
theorem toInt32_eq_self (n : Int) (h0 : 0 ≤ n) (h1 : n < 2 ^ 31) : toInt32 n = n := by
  unfold toInt32
  rw [Int.emod_eq_of_lt (by omega) (by omega)]
  omega

/-- After a describe call that succeeds with at least one group, the status
is the wrapped instance count of the first group — in every branch. -/
theorem reconcile_status_after_ok (client : Client) (spec : Spec) (status : Status)
    (group : AsgData) (rest : List AsgData)
    (hdesc : client.describeAutoScalingGroups (describeInputFor spec.id) =
      .ok ⟨group :: rest⟩) :
    (Reconcile client spec status).status =
      ⟨some (toInt32 (group.instances.length : Int))⟩ := by
  simp only [Reconcile, hdesc]
  rcases hr : spec.replicas with _ | desired
  · rfl
  · by_cases hob : toInt32 (group.instances.length : Int) = desired
    · simp [hob]
    · simp only [hob, if_false]
      rcases hu : client.updateAutoScalingGroup
          ⟨spec.id, desired⟩ with e | u <;> simp [hu]

/-- When the describe call succeeds with at least one group, the status after
a pass does not depend on the status before it. -/
theorem reconcile_status_independent (client : Client) (spec : Spec)
    (group : AsgData) (rest : List AsgData)
    (hdesc : client.describeAutoScalingGroups (describeInputFor spec.id) =
      .ok ⟨group :: rest⟩) (st st' : Status) :
    (Reconcile client spec st).status = (Reconcile client spec st').status := by
  rw [reconcile_status_after_ok client spec st group rest hdesc,
    reconcile_status_after_ok client spec st' group rest hdesc]

/-- When the describe call succeeds with at least one group, the status after
`n + 1` passes equals the status after one pass. -/
theorem reconcileIter_succ (client : Client) (spec : Spec)
    (group : AsgData) (rest : List AsgData)
    (hdesc : client.describeAutoScalingGroups (describeInputFor spec.id) =
      .ok ⟨group :: rest⟩) :
    ∀ (n : Nat) (st : Status),
      reconcileIter client spec (n + 1) st = (Reconcile client spec st).status := by
  intro n
  induction n with
  | zero => intro st; rfl
  | succ m ih =>
    intro st
    show reconcileIter client spec (m + 1) (Reconcile client spec st).status = _
    rw [ih]
    exact reconcile_status_independent client spec group rest hdesc _ st

/-! ### Claim theorems -/

/-- C1: when `DesiredReplicas` is set and differs from the observed instance
count, `Reconcile` issues exactly one update call requesting exactly
`DesiredReplicas`, and `ObservedReplicas` is set to the pre-update observed
count from the describe result, not to `DesiredReplicas`. -/
theorem reconcile_update_requests_desired (client : Client) (spec : Spec) (status : Status)
    (group : AsgData) (rest : List AsgData) (desired : Int)
    (hdesc : client.describeAutoScalingGroups (describeInputFor spec.id) =
      .ok ⟨group :: rest⟩)
    (hd : spec.replicas = some desired)
    (hsmall : (group.instances.length : Int) < 2 ^ 31)
    (hne : (group.instances.length : Int) ≠ desired) :
    (Reconcile client spec status).calls.filter ApiCall.isUpdate =
      [.update { autoScalingGroupName := spec.id, desiredCapacity := desired }] ∧
    (Reconcile client spec status).status.replicas =
      some (group.instances.length : Int) := by
  have hlen : toInt32 (group.instances.length : Int) = (group.instances.length : Int) :=
    toInt32_eq_self _ (Int.ofNat_nonneg _) hsmall
  have hst := reconcile_status_after_ok client spec status group rest hdesc
  refine ⟨?_, by rw [hst, hlen]⟩
  simp only [Reconcile, hdesc, hd, hlen]
  rw [if_neg hne]
  rcases hu : client.updateAutoScalingGroup ⟨spec.id, desired⟩ with e | u <;>
    simp [hu, List.filter, ApiCall.isUpdate]

/-- Witness for C1: desired 5, three observed instances — one update call
requesting 5, status set to 3. -/
theorem reconcile_update_requests_desired_witness :
    (Reconcile exClientOk ⟨"my-asg", some 5⟩ ⟨none⟩).calls.filter ApiCall.isUpdate =
      [.update { autoScalingGroupName := "my-asg", desiredCapacity := 5 }] ∧
    (Reconcile exClientOk ⟨"my-asg", some 5⟩ ⟨none⟩).status.replicas = some 3 :=
  reconcile_update_requests_desired exClientOk ⟨"my-asg", some 5⟩ ⟨none⟩
    exGroup3 [] 5 rfl rfl (by decide) (by decide)

/-- C2: when the describe call succeeds but returns zero groups (the named
auto-scaling group does not exist), `Reconcile` does not surface an error to
the caller: it crashes with an index-out-of-range runtime panic — here
evaluated at a concrete input.  The status is left untouched (the missing
resource is not treated as zero capacity) but no `ResourceLookupError` is
ever returned. -/
theorem reconcile_missing_group_crashes :
    Reconcile exClientEmpty ⟨"my-asg", some 5⟩ ⟨some 7⟩ =
      { status := ⟨some 7⟩
        calls := [.describe (describeInputFor "my-asg")]
        result := .crash "runtime error: index out of range [0] with length 0" } := by
  decide

/-- C3: when the describe call fails, `Reconcile` returns the error wrapped
with the node group identifier, issues no update call, and leaves the status
exactly as it was before the pass. -/
theorem reconcile_describe_error (client : Client) (spec : Spec) (status : Status)
    (e : String)
    (hdesc : client.describeAutoScalingGroups (describeInputFor spec.id) = .error e) :
    Reconcile client spec status =
      { status := status
        calls := [.describe (describeInputFor spec.id)]
        result := .err (describeErrMsg spec.id e) } := by
  simp only [Reconcile, hdesc]

/-- Witness for C3: a failing describe call leaves the prior status `some 7`
untouched and returns the wrapped error. -/
theorem reconcile_describe_error_witness :
    Reconcile exClientDescribeFail ⟨"my-asg", some 5⟩ ⟨some 7⟩ =
      { status := ⟨some 7⟩
        calls := [.describe (describeInputFor "my-asg")]
        result := .err (describeErrMsg "my-asg" "RequestError: send failed") } :=
  reconcile_describe_error exClientDescribeFail ⟨"my-asg", some 5⟩ ⟨some 7⟩
    "RequestError: send failed" rfl

/-- C4: whenever the describe call succeeds with a group, the status is set
to that group's instance count — unconditionally, for every value of
`DesiredReplicas`, including passes that end in no-op. -/
theorem reconcile_observes_count (client : Client) (spec : Spec) (status : Status)
    (group : AsgData) (rest : List AsgData)
    (hdesc : client.describeAutoScalingGroups (describeInputFor spec.id) =
      .ok ⟨group :: rest⟩)
    (hsmall : (group.instances.length : Int) < 2 ^ 31) :
    (Reconcile client spec status).status.replicas =
      some (group.instances.length : Int) := by
  rw [reconcile_status_after_ok client spec status group rest hdesc,
    toInt32_eq_self _ (Int.ofNat_nonneg _) hsmall]

/-- Witness for C4: a no-op pass (desired unset) still records the observed
count 7. -/
theorem reconcile_observes_count_witness :
    (Reconcile exClientOk7 ⟨"my-asg", none⟩ ⟨none⟩).status.replicas = some 7 :=
  reconcile_observes_count exClientOk7 ⟨"my-asg", none⟩ ⟨none⟩
    exGroup7 [] rfl (by decide)

/-- C5: when `DesiredReplicas` is unset, or equals the observed count, a
pass issues zero update calls and returns success, and iterating the pass
leaves the status unchanged after the first pass. -/
theorem reconcile_noop_idempotent (client : Client) (spec : Spec) (status : Status)
    (group : AsgData) (rest : List AsgData)
    (hdesc : client.describeAutoScalingGroups (describeInputFor spec.id) =
      .ok ⟨group :: rest⟩)
    (hsmall : (group.instances.length : Int) < 2 ^ 31)
    (hconv : spec.replicas = none ∨ spec.replicas = some (group.instances.length : Int))
    (n : Nat) (hn : 1 ≤ n) :
    (Reconcile client spec status).calls.filter ApiCall.isUpdate = [] ∧
    (Reconcile client spec status).result = .ok ∧
    reconcileIter client spec n status = reconcileIter client spec 1 status := by
  have hlen : toInt32 (group.instances.length : Int) = (group.instances.length : Int) :=
    toInt32_eq_self _ (Int.ofNat_nonneg _) hsmall
  have hiter : reconcileIter client spec n status = reconcileIter client spec 1 status := by
    obtain ⟨m, rfl⟩ : ∃ m, n = m + 1 := ⟨n - 1, by omega⟩
    rw [reconcileIter_succ client spec group rest hdesc m status,
      reconcileIter_succ client spec group rest hdesc 0 status]
  refine ⟨?_, ?_, hiter⟩ <;>
  · rcases hconv with hc | hc <;>
      simp [Reconcile, hdesc, hc, hlen, List.filter, ApiCall.isUpdate]

/-- Witness for C5: desired 7 equals observed 7; no update call, success,
and three passes end in the same status as one pass. -/
theorem reconcile_noop_idempotent_witness :
    (Reconcile exClientOk7 ⟨"my-asg", some 7⟩ ⟨none⟩).calls.filter ApiCall.isUpdate = [] ∧
    (Reconcile exClientOk7 ⟨"my-asg", some 7⟩ ⟨none⟩).result = .ok ∧
    reconcileIter exClientOk7 ⟨"my-asg", some 7⟩ 3 ⟨none⟩ =
      reconcileIter exClientOk7 ⟨"my-asg", some 7⟩ 1 ⟨none⟩ :=
  reconcile_noop_idempotent exClientOk7 ⟨"my-asg", some 7⟩ ⟨none⟩
    exGroup7 [] rfl (by decide) (Or.inr rfl) 3 (by decide)

/-- C6: every single `Reconcile` invocation — for every client behaviour,
spec, and prior status — issues at most one update call. -/
theorem reconcile_at_most_one_update (client : Client) (spec : Spec) (status : Status) :
    ((Reconcile client spec status).calls.filter ApiCall.isUpdate).length ≤ 1 := by
  unfold Reconcile
  rcases hdesc : client.describeAutoScalingGroups (describeInputFor spec.id) with e | out
  · simp [hdesc, List.filter, ApiCall.isUpdate]
  · rcases out with ⟨_ | ⟨group, rest⟩⟩
    · simp [hdesc, List.filter, ApiCall.isUpdate]
    · rcases hr : spec.replicas with _ | desired
      · simp [hdesc, hr, List.filter, ApiCall.isUpdate]
      · by_cases hob : toInt32 (group.instances.length : Int) = desired
        · simp [hdesc, hr, hob, List.filter, ApiCall.isUpdate]
        · rcases hu : client.updateAutoScalingGroup ⟨spec.id, desired⟩ with e | u <;>
            simp [hdesc, hr, hob, hu, List.filter, ApiCall.isUpdate]

/-- C7 counterexample: at a concrete input whose update call fails with
`"boom"`, `Reconcile` returns exactly `"boom"` — a message that does not
contain the node group identifier `"my-asg"` — so the update error is not
wrapped with the node group identifier as the claim states. -/
theorem reconcile_update_error_unwrapped_cex :
    (Reconcile exClientUpdateFail ⟨"my-asg", some 5⟩ ⟨none⟩).result = .err "boom" ∧
    containsStr "boom" "my-asg" = false := by
  constructor
  · decide
  · decide

/-- C7 amended: when the update call fails, `Reconcile` propagates the
update call's error verbatim — unwrapped, without the node group
identifier — and issues the mutating call exactly once (no internal
retry). -/
theorem reconcile_update_error_propagated (client : Client) (spec : Spec) (status : Status)
    (group : AsgData) (rest : List AsgData) (desired : Int) (e : String)
    (hdesc : client.describeAutoScalingGroups (describeInputFor spec.id) =
      .ok ⟨group :: rest⟩)
    (hd : spec.replicas = some desired)
    (hne : toInt32 (group.instances.length : Int) ≠ desired)
    (hupd : client.updateAutoScalingGroup
      ⟨spec.id, desired⟩ = .error e) :
    (Reconcile client spec status).result = .err e ∧
    (Reconcile client spec status).calls.filter ApiCall.isUpdate =
      [.update { autoScalingGroupName := spec.id, desiredCapacity := desired }] := by
  simp only [Reconcile, hdesc, hd]
  rw [if_neg hne]
  simp [hupd, List.filter, ApiCall.isUpdate]

/-- Witness for C7's amended claim: the failing update's error `"boom"` is
returned as-is and the update call appears exactly once in the trace. -/
theorem reconcile_update_error_propagated_witness :
    (Reconcile exClientUpdateFail ⟨"my-asg", some 5⟩ ⟨none⟩).result = .err "boom" ∧
    (Reconcile exClientUpdateFail ⟨"my-asg", some 5⟩ ⟨none⟩).calls.filter ApiCall.isUpdate =
      [.update { autoScalingGroupName := "my-asg", desiredCapacity := 5 }] :=
  reconcile_update_error_propagated exClientUpdateFail ⟨"my-asg", some 5⟩ ⟨none⟩
    exGroup3 [] 5 "boom" rfl rfl (by decide) rfl

/-- C8: `CapacityFor` issues no cloud API call, and every handle's
sub-provider references are exactly the factory's own — so any two handles
from the same factory share the same underlying sub-providers. -/
theorem capacityFor_no_calls_shares_subproviders (f : Factory) (p q : Provisioner) :
    (CapacityFor f p).2 = [] ∧
    (CapacityFor f p).1.provisioner = p ∧
    (CapacityFor f p).1.nodeFactory = f.nodeFactory ∧
    (CapacityFor f p).1.launchTemplateProvider = f.launchTemplateProvider ∧
    (CapacityFor f p).1.subnetProvider = f.subnetProvider ∧
    (CapacityFor f p).1.instanceTypeProvider = f.instanceTypeProvider ∧
    (CapacityFor f p).1.instanceProvider = f.instanceProvider ∧
    (CapacityFor f p).1.nodeFactory = (CapacityFor f q).1.nodeFactory ∧
    (CapacityFor f p).1.launchTemplateProvider = (CapacityFor f q).1.launchTemplateProvider ∧
    (CapacityFor f p).1.subnetProvider = (CapacityFor f q).1.subnetProvider ∧
    (CapacityFor f p).1.instanceTypeProvider = (CapacityFor f q).1.instanceTypeProvider ∧
    (CapacityFor f p).1.instanceProvider = (CapacityFor f q).1.instanceProvider := by
  repeat constructor

/-- C9: a failed instance-metadata region lookup aborts startup (no session
is produced at all, hence no default region); a successful lookup sets the
session's region to exactly the returned value. -/
theorem withRegion_fatal_or_sets_region (m : Except String String) (s : Session) :
    (∀ e, m = .error e →
      withRegion m s = .fatal "failed to call the metadata server's region API") ∧
    (∀ r, m = .ok r → withRegion m s = .ok { s with region := some r }) := by
  constructor
  · rintro e rfl; rfl
  · rintro r rfl; rfl

/-- Witness for C9: a lookup timeout aborts; a lookup returning
`"us-west-2"` yields a session whose region is `"us-west-2"`. -/
theorem withRegion_fatal_or_sets_region_witness :
    withRegion (.error "timeout") ⟨none⟩ =
      .fatal "failed to call the metadata server's region API" ∧
    withRegion (.ok "us-west-2") ⟨none⟩ = .ok ⟨some "us-west-2"⟩ :=
  ⟨(withRegion_fatal_or_sets_region (.error "timeout") ⟨none⟩).1 "timeout" rfl,
   (withRegion_fatal_or_sets_region (.ok "us-west-2") ⟨none⟩).2 "us-west-2" rfl⟩

/-- C10: when the describe call succeeds but the update call fails, the
status nonetheless keeps the newly observed instance count — the status
write is not rolled back on update failure. -/
theorem reconcile_status_survives_update_error (client : Client) (spec : Spec)
    (status : Status) (group : AsgData) (rest : List AsgData) (desired : Int) (e : String)
    (hdesc : client.describeAutoScalingGroups (describeInputFor spec.id) =
      .ok ⟨group :: rest⟩)
    (hd : spec.replicas = some desired)
    (hsmall : (group.instances.length : Int) < 2 ^ 31)
    (hne : (group.instances.length : Int) ≠ desired)
    (hupd : client.updateAutoScalingGroup
      ⟨spec.id, desired⟩ = .error e) :
    (Reconcile client spec status).status.replicas =
      some (group.instances.length : Int) ∧
    (Reconcile client spec status).result = .err e := by
  have hlen : toInt32 (group.instances.length : Int) = (group.instances.length : Int) :=
    toInt32_eq_self _ (Int.ofNat_nonneg _) hsmall
  have hst := reconcile_status_after_ok client spec status group rest hdesc
  refine ⟨by rw [hst, hlen], ?_⟩
  simp only [Reconcile, hdesc, hd, hlen]
  rw [if_neg hne]
  simp [hupd]

/-- Witness for C10: after a failed update, the status holds the observed
count 3 and the pass reports the update error. -/
theorem reconcile_status_survives_update_error_witness :
    (Reconcile exClientUpdateFail ⟨"my-asg", some 5⟩ ⟨some 1⟩).status.replicas = some 3 ∧
    (Reconcile exClientUpdateFail ⟨"my-asg", some 5⟩ ⟨some 1⟩).result = .err "boom" :=
  reconcile_status_survives_update_error exClientUpdateFail ⟨"my-asg", some 5⟩ ⟨some 1⟩
    exGroup3 [] 5 "boom" rfl rfl (by decide) (by decide) rfl

end Karpenter
